import Mathlib

/-!
Shallow embedding of the OAuth 2.0 authorization-server core from
`examples/mcp-authentication/auth_server.py`.

The Python module keeps three global dicts (`registered_clients`,
`authorization_codes`, `tokens`); we model each as an association store
with Python-dict semantics (insert overwrites, delete removes, lookup
finds the current binding).  Request handlers become pure functions from
the stores plus the request data to a response plus updated stores.
Nondeterministic inputs of the source (the `secrets`-based id generator,
`time.time()`, the external `openssl` signer, `json.dumps` of a payload
dict) become explicit parameters.
-/

set_option autoImplicit false

/-- A string-keyed map mirroring a Python dict. -/
def Store (V : Type) : Type := List (String × V)

/-- `d[k]` lookup: the current binding of `k`, if any. -/
def Store.find {V : Type} : Store V → String → Option V
  | [], _ => none
  | (k, v) :: rest, key => if k = key then some v else Store.find rest key

/-- `k in d` membership test. -/
def Store.mem {V : Type} (s : Store V) (k : String) : Bool :=
  (s.find k).isSome

/-- `d[k] = v` assignment: binds `k` to `v`, shadowing any old binding. -/
def Store.insert {V : Type} (s : Store V) (k : String) (v : V) : Store V :=
  (k, v) :: s.filter (fun p => p.1 ≠ k)

/-- `del d[k]`: removes the binding of `k`. -/
def Store.erase {V : Type} (s : Store V) (k : String) : Store V :=
  s.filter (fun p => p.1 ≠ k)

/-! ## base64url and JWT serialization (`base64url_encode`, `create_jwt_with_openssl`) -/

/-- The 64-character base64url alphabet used by `base64.urlsafe_b64encode`. -/
def b64urlAlphabet : List Char :=
  "ABCDEFGHIJKLMNOPQRSTUVWXYZabcdefghijklmnopqrstuvwxyz0123456789-_".toList

/-- Table lookup into the base64url alphabet. -/
def b64Char (i : Nat) : Char := b64urlAlphabet.getD i 'A'

/-- base64url encoding of a byte sequence with `=` padding stripped, as
`base64.urlsafe_b64encode(data).rstrip(b'=')` produces. -/
def b64urlEncode : List Nat → List Char
  | [] => []
  | [a] => [b64Char (a / 4 % 64), b64Char (a % 4 * 16)]
  | [a, b] => [b64Char (a / 4 % 64), b64Char (a % 4 * 16 + b / 16 % 16), b64Char (b % 16 * 4)]
  | a :: b :: c :: rest =>
      b64Char (a / 4 % 64) :: b64Char (a % 4 * 16 + b / 16 % 16) ::
      b64Char (b % 16 * 4 + c / 64 % 4) :: b64Char (c % 64) :: b64urlEncode rest

/-- UTF-8 bytes of a string, the `data.encode('utf-8')` step of `base64url_encode`. -/
def bytesOfString (s : String) : List Nat := s.toUTF8.toList.map UInt8.toNat

/-- `base64url_encode` applied to a `str` argument (auth_server.py lines 68-72). -/
def base64url_encode (s : String) : String := String.mk (b64urlEncode (bytesOfString s))

/-- The serialized JWT header `json.dumps(header, separators=(',',':'))` of
`create_jwt_with_openssl`: keys in insertion order `typ`, `alg`, `kid`. -/
def jwtHeaderJson : String := "\x7b\"typ\":\"JWT\",\"alg\":\"RS256\",\"kid\":\"key-1\"\x7d"

/-- `create_jwt_with_openssl` (auth_server.py lines 74-109).  The external
`openssl dgst -sha256 -sign` invocation is an opaque byte-producing function
of the signing input, modelled by the `sign` parameter; the payload arrives
already serialized by `json.dumps` as `payloadJson`. -/
def create_jwt_with_openssl (sign : String → List Nat) (payloadJson : String) : String :=
  let encoded_header := base64url_encode jwtHeaderJson
  let encoded_payload := base64url_encode payloadJson
  let signing_input := encoded_header ++ "." ++ encoded_payload
  let signature := String.mk (b64urlEncode (sign signing_input))
  signing_input ++ "." ++ signature

/-! ## Data model: the values held by the three global dicts -/

/-- One entry of `authorization_codes`: the `code_data` dict built in
`handle_authorize` (auth_server.py lines 244-252).  `expires_at` is in
seconds (`time.time()` based). -/
structure CodeData where
  client_id : String
  redirect_uri : String
  resource : String
  scope : String
  code_challenge : String
  code_challenge_method : String
  expires_at : Nat
deriving DecidableEq, Repr

/-- A JWT claim set as built in `handle_token` (access, refresh, or refreshed
access payload).  `client_id` is optional because the handler copies the
possibly-absent request value into the payload. -/
structure TokenPayload where
  aud : String
  client_id : Option String
  exp : Nat
  iat : Nat
  iss : String
  jti : String
  resource : String
  scope : String
  sub : String
  type : String
deriving DecidableEq, Repr

/-- One entry of the `tokens` dict: `{"token": ..., "payload": ...}`. -/
structure TokenEntry where
  token : String
  payload : TokenPayload
deriving DecidableEq, Repr

/-- The registration record built by `handle_register`
(auth_server.py lines 192-207). -/
structure Registration where
  client_id : String
  client_secret : String
  client_name : String
  client_description : String
  client_logo_url : Option String
  client_uri : Option String
  developer_name : String
  developer_email : String
  redirect_uris : List String
  grant_types : List String
  response_types : List String
  token_endpoint_auth_method : String
  created_at : String
  updated_at : String
deriving DecidableEq, Repr

/-- One entry of `registered_clients`.  `handle_register` stores a full
registration record; `handle_authorize` auto-registers the hardcoded client
id with a two-key dict holding only `client_id` and `redirect_uris`
(auth_server.py lines 232-236). -/
inductive ClientEntry where
  | full (r : Registration)
  | minimal (client_id : String) (redirect_uris : List String)
deriving DecidableEq, Repr

/-- Response of `handle_authorize`: an OAuth error JSON with its HTTP status,
or the consent HTML page carrying the client id and the
`redirect_uri?code=...` callback URL. -/
inductive AuthorizeResult where
  | errorResponse (error : String) (status : Nat)
  | consentPage (client_id : String) (callback_url : String)
deriving DecidableEq, Repr

/-- Response of `handle_token`: an OAuth error JSON with HTTP status, or the
token JSON `{access_token, refresh_token, token_type, expires_in}` (status
200).  `refresh_token` is optional because the refresh-token grant echoes the
possibly-absent request value. -/
inductive TokenResult where
  | errorResponse (error : String) (status : Nat)
  | tokenResponse (access_token : String) (refresh_token : Option String)
      (token_type : String) (expires_in : Nat)
deriving DecidableEq, Repr

/-- Parsed body of a `/register` request: the keys `handle_register` reads,
each absent or present. -/
structure RegisterBody where
  client_name : Option String
  client_description : Option String
  client_logo_url : Option String
  client_uri : Option String
  developer_name : Option String
  developer_email : Option String
  redirect_uris : Option (List String)
deriving DecidableEq, Repr

/-- The client id special-cased in `handle_authorize` line 232 and used as the
refresh-grant default client id. -/
def hardcodedClientId : String := "mcp_6950e6b7db0e6115a5af3a790340ad87"

/-- The default redirect URI list (registration default and the hardcoded
client's auto-registration). -/
def defaultRedirectUris : List String := ["http://localhost:6274/oauth/callback/debug"]

/-! ## Request handlers -/

/-- `handle_register` (auth_server.py lines 185-213).  The two
`generate_id` calls are nondeterministic, so their random suffixes are the
`genClientId`/`genClientSecret` parameters; `nowStr` is the
`time.strftime(...)` timestamp.  With a parsed body no exception can occur,
so the handler always responds 200 with the registration record. -/
def handle_register (clients : Store ClientEntry)
    (genClientId genClientSecret : String) (nowStr : String)
    (body : RegisterBody) : Registration × Store ClientEntry :=
  let client_id := "mcp_" ++ genClientId
  let client_secret := "secret_" ++ genClientSecret
  let registration : Registration := {
    client_id := client_id
    client_secret := client_secret
    client_name := body.client_name.getD "MCP Test Client"
    client_description := body.client_description.getD "A test MCP client"
    client_logo_url := body.client_logo_url
    client_uri := body.client_uri
    developer_name := body.developer_name.getD "Test Developer"
    developer_email := body.developer_email.getD "test@example.com"
    redirect_uris := body.redirect_uris.getD defaultRedirectUris
    grant_types := ["authorization_code", "refresh_token"]
    response_types := ["code"]
    token_endpoint_auth_method := "client_secret_basic"
    created_at := nowStr
    updated_at := nowStr }
  (registration, clients.insert client_id (ClientEntry.full registration))

/-- `handle_authorize` (auth_server.py lines 215-263).  Query parameters
arrive as strings already defaulted to `''` when absent
(`query_params.get(k, [''])[0]`); `now` is `time.time()` and `genCode` the
random 43-character suffix of `generate_id('', 43)`. -/
def handle_authorize (clients : Store ClientEntry) (codes : Store CodeData)
    (now : Nat) (genCode : String)
    (response_type client_id code_challenge code_challenge_method
      redirect_uri resource scope : String) :
    AuthorizeResult × Store ClientEntry × Store CodeData :=
  if response_type ≠ "code" then
    (AuthorizeResult.errorResponse "unsupported_response_type" 400, clients, codes)
  else
    let clients1 :=
      if clients.mem client_id = false ∧ client_id = hardcodedClientId then
        clients.insert client_id (ClientEntry.minimal client_id defaultRedirectUris)
      else clients
    if clients1.mem client_id = false then
      (AuthorizeResult.errorResponse "invalid_client" 400, clients1, codes)
    else
      let code_data : CodeData := {
        client_id := client_id
        redirect_uri := redirect_uri
        resource := resource
        scope := scope
        code_challenge := code_challenge
        code_challenge_method := code_challenge_method
        expires_at := now + 600 }
      let codes1 := codes.insert genCode code_data
      (AuthorizeResult.consentPage client_id (redirect_uri ++ "?code=" ++ genCode),
        clients1, codes1)

/-- The Basic-auth fallback of the authorization_code branch
(auth_server.py lines 404-412): if the body's `client_id` is falsy (absent or
the empty string) and the Authorization header is Basic and decodes to
`user:pass`, the user part becomes the client id; on any decode failure the
body value stands.  `basicAuthUser` is the decoded user part when the header
is present, well-formed Basic, and contains a colon. -/
def resolveClientId (body_client_id : Option String)
    (basicAuthUser : Option String) : Option String :=
  if body_client_id = none ∨ body_client_id = some "" then
    match basicAuthUser with
    | some u => some u
    | none => body_client_id
  else body_client_id

/-- The `access_token_payload` dict of the authorization_code branch
(auth_server.py lines 434-445). -/
def accessPayload (code_data : CodeData) (client_id : Option String)
    (now : Nat) (genAccessId : String) : TokenPayload :=
  { aud := code_data.resource
    client_id := client_id
    exp := now + 3600
    iat := now
    iss := "http://localhost:9000"
    jti := "access_" ++ genAccessId
    resource := code_data.resource
    scope := code_data.scope
    sub := "9026451"
    type := "access" }

/-- The `refresh_token_payload` dict of the authorization_code branch
(auth_server.py lines 447-458). -/
def refreshPayload (code_data : CodeData) (client_id : Option String)
    (now : Nat) (genRefreshId : String) : TokenPayload :=
  { aud := code_data.resource
    client_id := client_id
    exp := now + 30 * 24 * 3600
    iat := now
    iss := "http://localhost:9000"
    jti := "refresh_" ++ genRefreshId
    resource := code_data.resource
    scope := code_data.scope
    sub := "9026451"
    type := "refresh" }

/-- The `new_access_token_payload` dict of the refresh_token branch
(auth_server.py lines 485-496). -/
def refreshedAccessPayload (body_client_id : Option String)
    (now : Nat) (genAccessId : String) : TokenPayload :=
  { aud := "http://localhost:3000/mcp"
    client_id := some (body_client_id.getD hardcodedClientId)
    exp := now + 3600
    iat := now
    iss := "http://localhost:9000"
    jti := "access_" ++ genAccessId
    resource := "http://localhost:3000/mcp"
    scope := ""
    sub := "9026451"
    type := "access" }

/-- `handle_token` (auth_server.py lines 392-514).  Body fields are `Option`
(`body.get(k)` is `None` when absent); `now` is `int(time.time())`,
`genAccessId`/`genRefreshId` the random suffixes of `generate_id('access_')`
and `generate_id('refresh_')`, `sign` the external openssl signer and `dumps`
the `json.dumps` serialization of a payload dict.  The body may carry a PKCE
`code_verifier`; the source never reads that key, so the parameter is unused.
The `code_data.get('resource'/'scope', ...)` defaults never fire because
`handle_authorize` stores both keys (possibly as `''`). -/
def handle_token (codes : Store CodeData) (tokens : Store TokenEntry)
    (now : Nat) (genAccessId genRefreshId : String)
    (sign : String → List Nat) (dumps : TokenPayload → String)
    (grant_type code redirect_uri body_client_id code_verifier refresh_token
      basicAuthUser : Option String) :
    TokenResult × Store CodeData × Store TokenEntry :=
  if grant_type = some "authorization_code" then
    let client_id := resolveClientId body_client_id basicAuthUser
    match code with
    | none => (TokenResult.errorResponse "invalid_grant" 400, codes, tokens)
    | some c =>
      match codes.find c with
      | none => (TokenResult.errorResponse "invalid_grant" 400, codes, tokens)
      | some code_data =>
        if now > code_data.expires_at ∨ some code_data.client_id ≠ client_id ∨
            some code_data.redirect_uri ≠ redirect_uri then
          (TokenResult.errorResponse "invalid_grant" 400, codes, tokens)
        else
          let codes1 := codes.erase c
          let access_token_id := "access_" ++ genAccessId
          let refresh_token_id := "refresh_" ++ genRefreshId
          let access_token_payload := accessPayload code_data client_id now genAccessId
          let refresh_token_payload := refreshPayload code_data client_id now genRefreshId
          let access_token := create_jwt_with_openssl sign (dumps access_token_payload)
          let refresh_tok := create_jwt_with_openssl sign (dumps refresh_token_payload)
          let tokens1 :=
            (tokens.insert access_token_id ⟨access_token, access_token_payload⟩).insert
              refresh_token_id ⟨refresh_tok, refresh_token_payload⟩
          (TokenResult.tokenResponse access_token (some refresh_tok) "bearer" 3600,
            codes1, tokens1)
  else if grant_type = some "refresh_token" then
    let new_access_token_id := "access_" ++ genAccessId
    let new_access_token_payload := refreshedAccessPayload body_client_id now genAccessId
    let new_access_token := create_jwt_with_openssl sign (dumps new_access_token_payload)
    let tokens1 :=
      tokens.insert new_access_token_id ⟨new_access_token, new_access_token_payload⟩
    (TokenResult.tokenResponse new_access_token refresh_token "bearer" 3600,
      codes, tokens1)
  else (TokenResult.errorResponse "unsupported_grant_type" 400, codes, tokens)

/-! ## Outcome discriminator and concrete fixtures -/

/-- Discriminator for `handle_token` outcomes: `true` exactly on the 200
token JSON response. -/
def TokenResult.isSuccess : TokenResult → Bool
  | TokenResult.tokenResponse _ _ _ _ => true
  | TokenResult.errorResponse _ _ => false

/-- A concrete stored authorization code used to instantiate theorems with
hypotheses: issued to client `c1` for redirect URI `http://cb`, expiring at
time 1000. -/
def sampleCodeData : CodeData :=
  { client_id := "c1"
    redirect_uri := "http://cb"
    resource := "res"
    scope := ""
    code_challenge := "ch"
    code_challenge_method := "S256"
    expires_at := 1000 }

/-- The code record stored by the concrete authorize call of the C6 witness:
issued at time 100, so it expires at 700. -/
def issuedCodeData : CodeData :=
  { client_id := "c1"
    redirect_uri := "http://cb"
    resource := "res"
    scope := "sc"
    code_challenge := "ch"
    code_challenge_method := "S256"
    expires_at := 700 }

/-- The code record issued to the hardcoded client at time 0 in the C5
counterexample. -/
def hardcodedIssuedCodeData : CodeData :=
  { client_id := hardcodedClientId
    redirect_uri := "http://cb"
    resource := "res"
    scope := "sc"
    code_challenge := "ch"
    code_challenge_method := "S256"
    expires_at := 600 }

/-! ## base64url alphabet facts -/

theorem Store.find_filter_self {V : Type} (s : Store V) (k : String) :
    Store.find (s.filter (fun p => p.1 ≠ k)) k = none := by
  induction s with
  | nil => rfl
  | cons p rest ih =>
      rw [List.filter_cons]
      simp only [decide_not] at ih
      by_cases hp : p.1 = k
      · simp [hp, ih]
      · simp [hp, Store.find, ih]

theorem Store.find_filter_ne {V : Type} (s : Store V) (k k' : String)
    (h : k ≠ k') : Store.find (s.filter (fun p => p.1 ≠ k)) k' = s.find k' := by
  induction s with
  | nil => rfl
  | cons p rest ih =>
      rw [List.filter_cons]
      simp only [decide_not] at ih
      by_cases hp : p.1 = k
      · have hpk : p.1 ≠ k' := by rw [hp]; exact h
        simp [hp, Store.find, hpk, h, ih]
      · simp [hp, Store.find, ih]

theorem Store.find_insert_self {V : Type} (s : Store V) (k : String) (v : V) :
    (s.insert k v).find k = some v := by
  simp [Store.insert, Store.find]

theorem Store.find_insert_ne {V : Type} (s : Store V) (k k' : String) (v : V)
    (h : k ≠ k') : (s.insert k v).find k' = s.find k' := by
  simp only [Store.insert, Store.find, if_neg h]
  exact Store.find_filter_ne s k k' h

theorem Store.find_erase_self {V : Type} (s : Store V) (k : String) :
    (s.erase k).find k = none :=
  Store.find_filter_self s k

theorem Store.find_erase_ne {V : Type} (s : Store V) (k k' : String)
    (h : k ≠ k') : (s.erase k).find k' = s.find k' :=
  Store.find_filter_ne s k k' h


theorem b64Char_mem_alphabet (i : Nat) : b64Char i ∈ b64urlAlphabet := by
  unfold b64Char
  by_cases h : i < b64urlAlphabet.length
  · rw [List.getD_eq_getElem b64urlAlphabet 'A' h]
    exact List.getElem_mem h
  · rw [List.getD_eq_default b64urlAlphabet 'A' (Nat.le_of_not_lt h)]
    decide

theorem b64urlEncode_mem_alphabet (bs : List Nat) :
    ∀ ch ∈ b64urlEncode bs, ch ∈ b64urlAlphabet := by
  induction bs using b64urlEncode.induct with
  | case1 =>
      intro ch h
      simp [b64urlEncode] at h
  | case2 a =>
      intro ch h
      simp only [b64urlEncode, List.mem_cons, List.mem_singleton, List.not_mem_nil, or_false] at h
      rcases h with h | h <;> exact h ▸ b64Char_mem_alphabet _
  | case3 a b =>
      intro ch h
      simp only [b64urlEncode, List.mem_cons, List.not_mem_nil, or_false] at h
      rcases h with h | h | h <;> exact h ▸ b64Char_mem_alphabet _
  | case4 a b c rest ih =>
      intro ch h
      simp only [b64urlEncode, List.mem_cons] at h
      rcases h with h | h | h | h | h
      · exact h ▸ b64Char_mem_alphabet _
      · exact h ▸ b64Char_mem_alphabet _
      · exact h ▸ b64Char_mem_alphabet _
      · exact h ▸ b64Char_mem_alphabet _
      · exact ih ch h

theorem dot_not_mem_b64urlEncode (bs : List Nat) : '.' ∉ b64urlEncode bs := by
  intro h
  have hmem := b64urlEncode_mem_alphabet bs '.' h
  revert hmem
  decide

example : b64urlEncode [97] = "YQ".toList := by decide
example : b64urlEncode [97, 98] = "YWI".toList := by decide
example : b64urlEncode [97, 98, 99] = "YWJj".toList := by decide
example : b64urlEncode [97, 98, 99, 100] = "YWJjZA".toList := by decide

/-! ## Claim theorems -/

/-- C7: every token produced by the JWT creation function is three
dot-separated base64url segments — the base64url-encoded fixed JSON header
`typ:"JWT", alg:"RS256", kid:"key-1"`, the base64url-encoded payload, and a
base64url-encoded signature computed over the first two segments joined by
`.`; none of the three segments contains a dot, and the header (hence
`alg:"RS256"`) is the same for every payload. -/
theorem jwt_three_segments (sign : String → List Nat) (payloadJson : String) :
    create_jwt_with_openssl sign payloadJson =
      base64url_encode jwtHeaderJson ++ "." ++ base64url_encode payloadJson ++ "." ++
        String.mk (b64urlEncode (sign
          (base64url_encode jwtHeaderJson ++ "." ++ base64url_encode payloadJson))) ∧
    '.' ∉ (base64url_encode jwtHeaderJson).toList ∧
    '.' ∉ (base64url_encode payloadJson).toList ∧
    '.' ∉ (String.mk (b64urlEncode (sign
        (base64url_encode jwtHeaderJson ++ "." ++ base64url_encode payloadJson)))).toList ∧
    jwtHeaderJson = "\x7b\"typ\":\"JWT\",\"alg\":\"RS256\",\"kid\":\"key-1\"\x7d" := by
  refine ⟨rfl, ?_, ?_, ?_, rfl⟩
  · exact dot_not_mem_b64urlEncode _
  · exact dot_not_mem_b64urlEncode _
  · exact dot_not_mem_b64urlEncode _

/-- C9: registration always succeeds (the handler totally produces a record
and a 200 response for every parsed body); the stored entry under the
generated `client_id` is exactly the record returned to the registrant, the
`client_id`/`client_secret` are server-generated (`mcp_`/`secret_` plus the
random suffix), and no body content can influence them. -/
theorem register_lookup_roundtrip (clients : Store ClientEntry)
    (genClientId genClientSecret nowStr : String) (body : RegisterBody) :
    (handle_register clients genClientId genClientSecret nowStr body).2.find
        (handle_register clients genClientId genClientSecret nowStr body).1.client_id =
      some (ClientEntry.full (handle_register clients genClientId genClientSecret nowStr body).1) ∧
    (handle_register clients genClientId genClientSecret nowStr body).1.client_id =
      "mcp_" ++ genClientId ∧
    (handle_register clients genClientId genClientSecret nowStr body).1.client_secret =
      "secret_" ++ genClientSecret ∧
    ∀ body' : RegisterBody,
      (handle_register clients genClientId genClientSecret nowStr body').1.client_id =
        (handle_register clients genClientId genClientSecret nowStr body).1.client_id ∧
      (handle_register clients genClientId genClientSecret nowStr body').1.client_secret =
        (handle_register clients genClientId genClientSecret nowStr body).1.client_secret := by
  refine ⟨?_, rfl, rfl, fun body' => ⟨rfl, rfl⟩⟩
  exact Store.find_insert_self _ _ _

/-- C10: a `response_type=code` authorize request for any client id present
in the registry — whatever the entry's registered `redirect_uris` — issues a
code bound to exactly the supplied `redirect_uri` (including the empty
string standing for an absent parameter); the supplied value is never
compared against the registered ones. -/
theorem authorize_issues_code_for_any_redirect
    (clients : Store ClientEntry) (codes : Store CodeData) (now : Nat)
    (genCode client_id code_challenge code_challenge_method redirect_uri resource scope : String)
    (h : clients.mem client_id = true) :
    handle_authorize clients codes now genCode "code" client_id code_challenge
        code_challenge_method redirect_uri resource scope =
      (AuthorizeResult.consentPage client_id (redirect_uri ++ "?code=" ++ genCode),
        clients,
        codes.insert genCode
          { client_id := client_id, redirect_uri := redirect_uri, resource := resource,
            scope := scope, code_challenge := code_challenge,
            code_challenge_method := code_challenge_method, expires_at := now + 600 }) := by
  simp [handle_authorize, h]

/-- Witness for C10: a registered client whose registered redirect URI list
is `["http://localhost:6274/cb"]` obtains a code bound to the unrelated
supplied redirect URI `http://evil.example/cb`. -/
theorem authorize_issues_code_for_any_redirect_witness :
    Store.mem [("cid1", ClientEntry.minimal "cid1" ["http://localhost:6274/cb"])] "cid1" = true ∧
    handle_authorize [("cid1", ClientEntry.minimal "cid1" ["http://localhost:6274/cb"])]
        [] 50 "CODE43" "code" "cid1" "chal" "S256" "http://evil.example/cb" "res1" "sc1" =
      (AuthorizeResult.consentPage "cid1" ("http://evil.example/cb" ++ "?code=" ++ "CODE43"),
        [("cid1", ClientEntry.minimal "cid1" ["http://localhost:6274/cb"])],
        Store.insert [] "CODE43"
          { client_id := "cid1", redirect_uri := "http://evil.example/cb", resource := "res1",
            scope := "sc1", code_challenge := "chal",
            code_challenge_method := "S256", expires_at := 50 + 600 }) :=
  ⟨by decide, authorize_issues_code_for_any_redirect _ _ _ _ _ _ _ _ _ _ (by decide)⟩

/-! ## Branch characterizations of `handle_token`'s authorization_code grant -/

theorem handle_token_code_none (codes : Store CodeData) (tokens : Store TokenEntry)
    (now : Nat) (genA genR : String) (sign : String → List Nat)
    (dumps : TokenPayload → String) (ruri bcid cv rtok bau : Option String) :
    handle_token codes tokens now genA genR sign dumps (some "authorization_code")
        none ruri bcid cv rtok bau =
      (TokenResult.errorResponse "invalid_grant" 400, codes, tokens) := by
  simp [handle_token]

theorem handle_token_code_unknown (codes : Store CodeData) (tokens : Store TokenEntry)
    (now : Nat) (genA genR : String) (sign : String → List Nat)
    (dumps : TokenPayload → String) (c : String) (ruri bcid cv rtok bau : Option String)
    (hfind : codes.find c = none) :
    handle_token codes tokens now genA genR sign dumps (some "authorization_code")
        (some c) ruri bcid cv rtok bau =
      (TokenResult.errorResponse "invalid_grant" 400, codes, tokens) := by
  simp [handle_token, hfind]

theorem handle_token_match_invalid (codes : Store CodeData) (tokens : Store TokenEntry)
    (now : Nat) (genA genR : String) (sign : String → List Nat)
    (dumps : TokenPayload → String) (c : String) (cd : CodeData)
    (ruri bcid cv rtok bau : Option String)
    (hfind : codes.find c = some cd)
    (hv : now > cd.expires_at ∨ some cd.client_id ≠ resolveClientId bcid bau ∨
      some cd.redirect_uri ≠ ruri) :
    handle_token codes tokens now genA genR sign dumps (some "authorization_code")
        (some c) ruri bcid cv rtok bau =
      (TokenResult.errorResponse "invalid_grant" 400, codes, tokens) := by
  simp only [handle_token, hfind, if_pos hv]
  simp

theorem handle_token_match_valid (codes : Store CodeData) (tokens : Store TokenEntry)
    (now : Nat) (genA genR : String) (sign : String → List Nat)
    (dumps : TokenPayload → String) (c : String) (cd : CodeData)
    (ruri bcid cv rtok bau : Option String)
    (hfind : codes.find c = some cd)
    (hexp : ¬ now > cd.expires_at)
    (hcid : some cd.client_id = resolveClientId bcid bau)
    (huri : some cd.redirect_uri = ruri) :
    handle_token codes tokens now genA genR sign dumps (some "authorization_code")
        (some c) ruri bcid cv rtok bau =
      (TokenResult.tokenResponse
          (create_jwt_with_openssl sign
            (dumps (accessPayload cd (resolveClientId bcid bau) now genA)))
          (some (create_jwt_with_openssl sign
            (dumps (refreshPayload cd (resolveClientId bcid bau) now genR))))
          "bearer" 3600,
        codes.erase c,
        (tokens.insert ("access_" ++ genA)
            ⟨create_jwt_with_openssl sign
              (dumps (accessPayload cd (resolveClientId bcid bau) now genA)),
              accessPayload cd (resolveClientId bcid bau) now genA⟩).insert
          ("refresh_" ++ genR)
          ⟨create_jwt_with_openssl sign
              (dumps (refreshPayload cd (resolveClientId bcid bau) now genR)),
            refreshPayload cd (resolveClientId bcid bau) now genR⟩) := by
  simp [handle_token, hfind, hexp, ← hcid, ← huri]

/-- Distinct token-store keys: a `refresh_`-prefixed id never equals an
`access_`-prefixed id. -/
theorem refresh_id_ne_access_id (r a : String) :
    "refresh_" ++ r ≠ "access_" ++ a := by
  intro h
  have h0 : ("refresh_" ++ r).data.head? = ("access_" ++ a).data.head? := by rw [h]
  have h1 : ("refresh_" ++ r).data.head? = some 'r' := rfl
  have h2 : ("access_" ++ a).data.head? = some 'a' := rfl
  rw [h1, h2] at h0
  exact absurd h0 (by decide)

/-- C8: every refresh_token-grant request succeeds regardless of the
presented `refresh_token` (none of signature, expiry or store membership is
checked — the handler does not even inspect the value), a fresh access token
with `exp = now + 3600` is minted and recorded, the code store is untouched,
and the response echoes the presented `refresh_token` back unchanged. -/
theorem refresh_grant_unvalidated (codes : Store CodeData) (tokens : Store TokenEntry)
    (now : Nat) (genA genR : String) (sign : String → List Nat)
    (dumps : TokenPayload → String) (code ruri bcid cv rtok bau : Option String) :
    handle_token codes tokens now genA genR sign dumps (some "refresh_token")
        code ruri bcid cv rtok bau =
      (TokenResult.tokenResponse
          (create_jwt_with_openssl sign (dumps (refreshedAccessPayload bcid now genA)))
          rtok "bearer" 3600,
        codes,
        tokens.insert ("access_" ++ genA)
          ⟨create_jwt_with_openssl sign (dumps (refreshedAccessPayload bcid now genA)),
            refreshedAccessPayload bcid now genA⟩) ∧
    (refreshedAccessPayload bcid now genA).exp = now + 3600 ∧
    (refreshedAccessPayload bcid now genA).iat = now := by
  refine ⟨?_, rfl, rfl⟩
  simp [handle_token]

/-- C1: a successful authorization_code exchange removes the code from the
store, and every later authorization_code exchange presenting the same code
— whatever its other parameters — answers `invalid_grant` (HTTP 400). -/
theorem code_single_use (codes : Store CodeData) (tokens : Store TokenEntry)
    (now : Nat) (genA genR : String) (sign : String → List Nat)
    (dumps : TokenPayload → String) (c : String) (ruri bcid cv rtok bau : Option String)
    (hok : (handle_token codes tokens now genA genR sign dumps
        (some "authorization_code") (some c) ruri bcid cv rtok bau).1.isSuccess = true) :
    (handle_token codes tokens now genA genR sign dumps (some "authorization_code")
        (some c) ruri bcid cv rtok bau).2.1.find c = none ∧
    ∀ (tokens' : Store TokenEntry) (now' : Nat) (genA' genR' : String)
      (sign' : String → List Nat) (dumps' : TokenPayload → String)
      (ruri' bcid' cv' rtok' bau' : Option String),
      (handle_token (handle_token codes tokens now genA genR sign dumps
            (some "authorization_code") (some c) ruri bcid cv rtok bau).2.1
          tokens' now' genA' genR' sign' dumps' (some "authorization_code")
          (some c) ruri' bcid' cv' rtok' bau').1 =
        TokenResult.errorResponse "invalid_grant" 400 := by
  cases hfind : codes.find c with
  | none =>
      rw [handle_token_code_unknown codes tokens now genA genR sign dumps c
        ruri bcid cv rtok bau hfind] at hok
      simp [TokenResult.isSuccess] at hok
  | some cd =>
      by_cases hv : now > cd.expires_at ∨ some cd.client_id ≠ resolveClientId bcid bau ∨
          some cd.redirect_uri ≠ ruri
      · rw [handle_token_match_invalid codes tokens now genA genR sign dumps c cd
          ruri bcid cv rtok bau hfind hv] at hok
        simp [TokenResult.isSuccess] at hok
      · push_neg at hv
        rw [handle_token_match_valid codes tokens now genA genR sign dumps c cd
          ruri bcid cv rtok bau hfind (Nat.not_lt.mpr hv.1) hv.2.1 hv.2.2]
        refine ⟨Store.find_erase_self codes c, ?_⟩
        intro tokens' now' genA' genR' sign' dumps' ruri' bcid' cv' rtok' bau'
        rw [handle_token_code_unknown (codes.erase c) tokens' now' genA' genR' sign'
          dumps' c ruri' bcid' cv' rtok' bau' (Store.find_erase_self codes c)]

/-- Witness for C1: a concrete successful exchange deletes the code and a
concrete replay of the same code answers `invalid_grant`. -/
theorem code_single_use_witness :
    (handle_token [("CODEW", sampleCodeData)] [] 0 "A1" "R1"
        (fun _ => []) (fun _ => "") (some "authorization_code") (some "CODEW")
        (some "http://cb") (some "c1") none none none).2.1.find "CODEW" = none ∧
    (handle_token (handle_token [("CODEW", sampleCodeData)] [] 0 "A1" "R1"
          (fun _ => []) (fun _ => "") (some "authorization_code") (some "CODEW")
          (some "http://cb") (some "c1") none none none).2.1
        [] 5 "A2" "R2" (fun _ => []) (fun _ => "") (some "authorization_code")
        (some "CODEW") (some "http://cb") (some "c1") none none none).1 =
      TokenResult.errorResponse "invalid_grant" 400 := by
  have h := code_single_use [("CODEW", sampleCodeData)] [] 0 "A1" "R1"
    (fun _ => []) (fun _ => "") "CODEW" (some "http://cb") (some "c1") none none none
    (by decide)
  exact ⟨h.1, h.2 [] 5 "A2" "R2" (fun _ => []) (fun _ => "")
    (some "http://cb") (some "c1") none none none⟩

/-- C3: in an authorization_code exchange, all four validation failures —
code absent/unknown, code expired, client id mismatch, redirect URI mismatch
— produce the identical `invalid_grant` (HTTP 400) response with untouched
stores, revealing nothing about which check failed; and a token response is
produced exactly when all four checks pass. -/
theorem token_validation_uniform_error (codes : Store CodeData)
    (tokens : Store TokenEntry) (now : Nat) (genA genR : String)
    (sign : String → List Nat) (dumps : TokenPayload → String)
    (code ruri bcid cv rtok bau : Option String) :
    ((code = none ∨ ∃ c, code = some c ∧ codes.find c = none) →
      handle_token codes tokens now genA genR sign dumps (some "authorization_code")
          code ruri bcid cv rtok bau =
        (TokenResult.errorResponse "invalid_grant" 400, codes, tokens)) ∧
    (∀ c cd, code = some c → codes.find c = some cd →
      (now > cd.expires_at ∨ some cd.client_id ≠ resolveClientId bcid bau ∨
        some cd.redirect_uri ≠ ruri) →
      handle_token codes tokens now genA genR sign dumps (some "authorization_code")
          code ruri bcid cv rtok bau =
        (TokenResult.errorResponse "invalid_grant" 400, codes, tokens)) ∧
    (∀ c cd, code = some c → codes.find c = some cd → ¬ now > cd.expires_at →
      some cd.client_id = resolveClientId bcid bau → some cd.redirect_uri = ruri →
      ∃ tkA tkR, (handle_token codes tokens now genA genR sign dumps
          (some "authorization_code") code ruri bcid cv rtok bau).1 =
        TokenResult.tokenResponse tkA (some tkR) "bearer" 3600) ∧
    (∀ tkA tkR tt ei, (handle_token codes tokens now genA genR sign dumps
          (some "authorization_code") code ruri bcid cv rtok bau).1 =
        TokenResult.tokenResponse tkA tkR tt ei →
      ∃ c cd, code = some c ∧ codes.find c = some cd ∧ ¬ now > cd.expires_at ∧
        some cd.client_id = resolveClientId bcid bau ∧ some cd.redirect_uri = ruri) := by
  refine ⟨?_, ?_, ?_, ?_⟩
  · rintro (rfl | ⟨c, rfl, hfind⟩)
    · exact handle_token_code_none codes tokens now genA genR sign dumps ruri bcid cv rtok bau
    · exact handle_token_code_unknown codes tokens now genA genR sign dumps c
        ruri bcid cv rtok bau hfind
  · rintro c cd rfl hfind hv
    exact handle_token_match_invalid codes tokens now genA genR sign dumps c cd
      ruri bcid cv rtok bau hfind hv
  · rintro c cd rfl hfind h1 h2 h3
    rw [handle_token_match_valid codes tokens now genA genR sign dumps c cd
      ruri bcid cv rtok bau hfind h1 h2 h3]
    exact ⟨_, _, rfl⟩
  · intro tkA tkR tt ei h
    cases code with
    | none =>
        rw [handle_token_code_none codes tokens now genA genR sign dumps
          ruri bcid cv rtok bau] at h
        simp at h
    | some c =>
        cases hfind : codes.find c with
        | none =>
            rw [handle_token_code_unknown codes tokens now genA genR sign dumps c
              ruri bcid cv rtok bau hfind] at h
            simp at h
        | some cd =>
            by_cases hv : now > cd.expires_at ∨
                some cd.client_id ≠ resolveClientId bcid bau ∨
                some cd.redirect_uri ≠ ruri
            · rw [handle_token_match_invalid codes tokens now genA genR sign dumps c cd
                ruri bcid cv rtok bau hfind hv] at h
              simp at h
            · push_neg at hv
              exact ⟨c, cd, rfl, hfind, Nat.not_lt.mpr hv.1, hv.2.1, hv.2.2⟩

/-- Witness for C3: a concrete exchange presenting no code at all receives
the `invalid_grant` (400) response with untouched stores. -/
theorem token_validation_uniform_error_witness :
    handle_token [] [] 0 "A1" "R1" (fun _ => []) (fun _ => "")
        (some "authorization_code") none (some "http://cb") (some "c1") none none none =
      (TokenResult.errorResponse "invalid_grant" 400, [], []) :=
  (token_validation_uniform_error [] [] 0 "A1" "R1" (fun _ => []) (fun _ => "")
    none (some "http://cb") (some "c1") none none none).1 (Or.inl rfl)

/-- C6: an authorization code stored by `/authorize` expires at issuance
time + 600 seconds; a successful authorization_code exchange records an
access token with `exp = iat + 3600` and a refresh token with
`exp = iat + 2592000` (both with `iat = now`), and the token response
reports `expires_in = 3600`. -/
theorem token_lifetimes (clients : Store ClientEntry) (codes0 : Store CodeData)
    (nowA : Nat) (genCode rt cid ch ccm ruriA res sc : String) (cd : CodeData)
    (codes : Store CodeData) (tokens : Store TokenEntry) (now : Nat)
    (genA genR : String) (sign : String → List Nat) (dumps : TokenPayload → String)
    (code ruri bcid cv rtok bau : Option String)
    (hstored : (handle_authorize clients codes0 nowA genCode rt cid ch ccm
        ruriA res sc).2.2.find genCode = some cd)
    (hfresh : codes0.find genCode = none)
    (hsucc : (handle_token codes tokens now genA genR sign dumps
        (some "authorization_code") code ruri bcid cv rtok bau).1.isSuccess = true) :
    cd.expires_at = nowA + 600 ∧
    ∃ (tkA tkR : String) (plA plR : TokenPayload),
      (handle_token codes tokens now genA genR sign dumps
          (some "authorization_code") code ruri bcid cv rtok bau).1 =
        TokenResult.tokenResponse tkA (some tkR) "bearer" 3600 ∧
      (handle_token codes tokens now genA genR sign dumps
          (some "authorization_code") code ruri bcid cv rtok bau).2.2.find
          ("access_" ++ genA) = some ⟨tkA, plA⟩ ∧
      (handle_token codes tokens now genA genR sign dumps
          (some "authorization_code") code ruri bcid cv rtok bau).2.2.find
          ("refresh_" ++ genR) = some ⟨tkR, plR⟩ ∧
      plA.iat = now ∧ plA.exp = plA.iat + 3600 ∧
      plR.iat = now ∧ plR.exp = plR.iat + 2592000 := by
  constructor
  · simp only [handle_authorize] at hstored
    split at hstored
    · simp [hfresh] at hstored
    · split at hstored
      · split at hstored
        · simp [hfresh] at hstored
        · rw [Store.find_insert_self] at hstored
          simp only [Option.some.injEq] at hstored
          subst hstored
          rfl
      · split at hstored
        · simp [hfresh] at hstored
        · rw [Store.find_insert_self] at hstored
          simp only [Option.some.injEq] at hstored
          subst hstored
          rfl
  · cases code with
    | none =>
        rw [handle_token_code_none codes tokens now genA genR sign dumps
          ruri bcid cv rtok bau] at hsucc
        simp [TokenResult.isSuccess] at hsucc
    | some c =>
        cases hfind : codes.find c with
        | none =>
            rw [handle_token_code_unknown codes tokens now genA genR sign dumps c
              ruri bcid cv rtok bau hfind] at hsucc
            simp [TokenResult.isSuccess] at hsucc
        | some cd' =>
            by_cases hv : now > cd'.expires_at ∨
                some cd'.client_id ≠ resolveClientId bcid bau ∨
                some cd'.redirect_uri ≠ ruri
            · rw [handle_token_match_invalid codes tokens now genA genR sign dumps c
                cd' ruri bcid cv rtok bau hfind hv] at hsucc
              simp [TokenResult.isSuccess] at hsucc
            · push_neg at hv
              rw [handle_token_match_valid codes tokens now genA genR sign dumps c
                cd' ruri bcid cv rtok bau hfind (Nat.not_lt.mpr hv.1) hv.2.1 hv.2.2]
              refine ⟨create_jwt_with_openssl sign
                  (dumps (accessPayload cd' (resolveClientId bcid bau) now genA)),
                create_jwt_with_openssl sign
                  (dumps (refreshPayload cd' (resolveClientId bcid bau) now genR)),
                accessPayload cd' (resolveClientId bcid bau) now genA,
                refreshPayload cd' (resolveClientId bcid bau) now genR,
                rfl, ?_, ?_, rfl, rfl, rfl, ?_⟩
              · rw [Store.find_insert_ne _ _ _ _ (refresh_id_ne_access_id genR genA),
                  Store.find_insert_self]
              · rw [Store.find_insert_self]
              · rfl

/-- Witness for C6: a concrete authorize call at time 100 stores a code
expiring at 700, and a concrete successful exchange of it at time 700 mints
tokens with the specified lifetimes. -/
theorem token_lifetimes_witness :
    issuedCodeData.expires_at = 100 + 600 ∧
    ∃ (tkA tkR : String) (plA plR : TokenPayload),
      (handle_token [("CODEL", issuedCodeData)] [] 700 "A1" "R1"
          (fun _ => []) (fun _ => "") (some "authorization_code") (some "CODEL")
          (some "http://cb") (some "c1") none none none).1 =
        TokenResult.tokenResponse tkA (some tkR) "bearer" 3600 ∧
      (handle_token [("CODEL", issuedCodeData)] [] 700 "A1" "R1"
          (fun _ => []) (fun _ => "") (some "authorization_code") (some "CODEL")
          (some "http://cb") (some "c1") none none none).2.2.find
          ("access_" ++ "A1") = some ⟨tkA, plA⟩ ∧
      (handle_token [("CODEL", issuedCodeData)] [] 700 "A1" "R1"
          (fun _ => []) (fun _ => "") (some "authorization_code") (some "CODEL")
          (some "http://cb") (some "c1") none none none).2.2.find
          ("refresh_" ++ "R1") = some ⟨tkR, plR⟩ ∧
      plA.iat = 700 ∧ plA.exp = plA.iat + 3600 ∧
      plR.iat = 700 ∧ plR.exp = plR.iat + 2592000 :=
  token_lifetimes [("c1", ClientEntry.minimal "c1" [])] [] 100
    "CODEL" "code" "c1" "ch" "S256" "http://cb" "res" "sc" issuedCodeData
    [("CODEL", issuedCodeData)] [] 700 "A1" "R1" (fun _ => []) (fun _ => "")
    (some "CODEL") (some "http://cb") (some "c1") none none none
    (by decide) rfl (by decide)

/-- Counterexample for C2: the token endpoint issues tokens without any PKCE
check.  Here the stored `code_challenge` is the 2-character string `ch`
(an S256 challenge is always the 43-character base64url SHA-256 digest, so
no `code_verifier` whatsoever can match it), the request carries
`code_verifier = "wrong-verifier"`, and the exchange still succeeds. -/
theorem pkce_not_verified_counterexample :
    (handle_token [("CODEP", sampleCodeData)] [] 0 "A1" "R1"
        (fun _ => []) (fun _ => "") (some "authorization_code") (some "CODEP")
        (some "http://cb") (some "c1") (some "wrong-verifier") none none).1.isSuccess
      = true ∧
    sampleCodeData.code_challenge = "ch" ∧
    sampleCodeData.code_challenge_method = "S256" ∧
    sampleCodeData.code_challenge.length ≠ 43 := by
  refine ⟨by decide, rfl, rfl, by decide⟩

/-- C2 amended: the token endpoint never reads the request's
`code_verifier`; the exchange outcome is identical for every supplied
verifier, and whenever the four non-PKCE checks pass, tokens are issued
regardless of the stored `code_challenge` and of the verifier. -/
theorem pkce_verifier_ignored (codes : Store CodeData) (tokens : Store TokenEntry)
    (now : Nat) (genA genR : String) (sign : String → List Nat)
    (dumps : TokenPayload → String) (code ruri bcid rtok bau : Option String)
    (c : String) (cd : CodeData) (cv cv' : Option String)
    (hc : code = some c) (hfind : codes.find c = some cd)
    (hexp : ¬ now > cd.expires_at)
    (hcid : some cd.client_id = resolveClientId bcid bau)
    (huri : some cd.redirect_uri = ruri) :
    handle_token codes tokens now genA genR sign dumps (some "authorization_code")
        code ruri bcid cv rtok bau =
      handle_token codes tokens now genA genR sign dumps (some "authorization_code")
        code ruri bcid cv' rtok bau ∧
    (handle_token codes tokens now genA genR sign dumps (some "authorization_code")
        code ruri bcid cv rtok bau).1.isSuccess = true := by
  subst hc
  refine ⟨rfl, ?_⟩
  rw [handle_token_match_valid codes tokens now genA genR sign dumps c cd
    ruri bcid cv rtok bau hfind hexp hcid huri]
  rfl

/-- Witness for C2's amended theorem: concrete exchanges differing only in
`code_verifier` coincide and succeed. -/
theorem pkce_verifier_ignored_witness :
    (handle_token [("CODEP2", sampleCodeData)] [] 0 "A1" "R1"
        (fun _ => []) (fun _ => "") (some "authorization_code") (some "CODEP2")
        (some "http://cb") (some "c1") (some "verifier-one") none none =
      handle_token [("CODEP2", sampleCodeData)] [] 0 "A1" "R1"
        (fun _ => []) (fun _ => "") (some "authorization_code") (some "CODEP2")
        (some "http://cb") (some "c1") (some "verifier-two") none none) ∧
    (handle_token [("CODEP2", sampleCodeData)] [] 0 "A1" "R1"
        (fun _ => []) (fun _ => "") (some "authorization_code") (some "CODEP2")
        (some "http://cb") (some "c1") (some "verifier-one") none none).1.isSuccess
      = true :=
  pkce_verifier_ignored [("CODEP2", sampleCodeData)] [] 0 "A1" "R1"
    (fun _ => []) (fun _ => "") (some "CODEP2") (some "http://cb") (some "c1")
    none none "CODEP2" sampleCodeData (some "verifier-one") (some "verifier-two")
    rfl (by decide) (by decide) (by decide) (by decide)

/-- Counterexample for C4: when the presented code matches a stored entry
but a later check fails (here: client id mismatch), the handler returns
`invalid_grant` WITHOUT deleting the code — the matched code is still in the
store after the request. -/
theorem matched_code_retained_counterexample :
    (handle_token [("CODEM", sampleCodeData)] [] 0 "A1" "R1"
        (fun _ => []) (fun _ => "") (some "authorization_code") (some "CODEM")
        (some "http://cb") (some "attacker") none none none).1 =
      TokenResult.errorResponse "invalid_grant" 400 ∧
    (handle_token [("CODEM", sampleCodeData)] [] 0 "A1" "R1"
        (fun _ => []) (fun _ => "") (some "authorization_code") (some "CODEM")
        (some "http://cb") (some "attacker") none none none).2.1.find "CODEM" =
      some sampleCodeData := by
  exact ⟨by decide, by decide⟩

/-- C4 amended: a matched authorization code is deleted only when the
expiry, client-id and redirect-uri checks all pass; when any of them fails
the whole code store — the matched entry included — is left unchanged. -/
theorem code_deleted_only_on_success (codes : Store CodeData)
    (tokens : Store TokenEntry) (now : Nat) (genA genR : String)
    (sign : String → List Nat) (dumps : TokenPayload → String)
    (c : String) (cd : CodeData) (ruri bcid cv rtok bau : Option String)
    (hfind : codes.find c = some cd) :
    ((¬ now > cd.expires_at ∧ some cd.client_id = resolveClientId bcid bau ∧
        some cd.redirect_uri = ruri) →
      (handle_token codes tokens now genA genR sign dumps
          (some "authorization_code") (some c) ruri bcid cv rtok bau).2.1.find c =
        none) ∧
    ((now > cd.expires_at ∨ some cd.client_id ≠ resolveClientId bcid bau ∨
        some cd.redirect_uri ≠ ruri) →
      (handle_token codes tokens now genA genR sign dumps
          (some "authorization_code") (some c) ruri bcid cv rtok bau).2.1 = codes) := by
  constructor
  · rintro ⟨h1, h2, h3⟩
    rw [handle_token_match_valid codes tokens now genA genR sign dumps c cd
      ruri bcid cv rtok bau hfind h1 h2 h3]
    exact Store.find_erase_self codes c
  · intro hv
    rw [handle_token_match_invalid codes tokens now genA genR sign dumps c cd
      ruri bcid cv rtok bau hfind hv]

/-- Witness for C4's amended theorem: a concrete mismatched exchange leaves
the code store untouched. -/
theorem code_deleted_only_on_success_witness :
    (handle_token [("CODEN", sampleCodeData)] [] 0 "A1" "R1"
        (fun _ => []) (fun _ => "") (some "authorization_code") (some "CODEN")
        (some "http://cb") (some "attacker") none none none).2.1 =
      [("CODEN", sampleCodeData)] :=
  (code_deleted_only_on_success [("CODEN", sampleCodeData)] [] 0 "A1" "R1"
    (fun _ => []) (fun _ => "") "CODEN" sampleCodeData (some "http://cb")
    (some "attacker") none none none (by decide)).2 (by decide)

/-- Counterexample for C5: the hardcoded client id is not in an empty
registry, yet its authorize request is not rejected — it is auto-registered
and an authorization code is issued for it. -/
theorem hardcoded_client_bypass_counterexample :
    Store.mem ([] : Store ClientEntry) hardcodedClientId = false ∧
    (handle_authorize [] [] 0 "CODEH" "code" hardcodedClientId "ch" "S256"
        "http://cb" "res" "sc").1 =
      AuthorizeResult.consentPage hardcodedClientId ("http://cb" ++ "?code=" ++ "CODEH") ∧
    (handle_authorize [] [] 0 "CODEH" "code" hardcodedClientId "ch" "S256"
        "http://cb" "res" "sc").2.2.find "CODEH" = some hardcodedIssuedCodeData := by
  refine ⟨rfl, by decide, by decide⟩

/-- C5 amended: an authorize request with `response_type=code` whose client
id is neither registered nor equal to the hardcoded
`mcp_6950e6b7db0e6115a5af3a790340ad87` fails with `invalid_client` (HTTP
400) and no code is issued; that one hardcoded id bypasses the check by
being auto-registered. -/
theorem unknown_client_rejected (clients : Store ClientEntry)
    (codes : Store CodeData) (now : Nat)
    (genCode client_id code_challenge code_challenge_method redirect_uri resource scope : String)
    (h1 : clients.mem client_id = false) (h2 : client_id ≠ hardcodedClientId) :
    handle_authorize clients codes now genCode "code" client_id code_challenge
        code_challenge_method redirect_uri resource scope =
      (AuthorizeResult.errorResponse "invalid_client" 400, clients, codes) := by
  simp [handle_authorize, h1, h2]

/-- Witness for C5's amended theorem: a concrete unregistered,
non-hardcoded client id is rejected with `invalid_client`. -/
theorem unknown_client_rejected_witness :
    handle_authorize [] [] 0 "CODEU" "code" "nobody" "ch" "S256"
        "http://cb" "res" "sc" =
      (AuthorizeResult.errorResponse "invalid_client" 400, [], []) :=
  unknown_client_rejected [] [] 0 "CODEU" "nobody" "ch" "S256" "http://cb"
    "res" "sc" (by decide) (by decide)
